import Mathlib

/-!
Verification of the mermaid-render processing pipeline.

This file gives a shallow embedding, in Lean 4, of the core processing code
of the repository (src/draft-ts/processor.ts, src/draft-ts/config.ts, the
types in src/draft-ts/types.ts and the hashing utility createContentHash of
utils.ts), and proves or refutes the behavioural claims made about it.

Document text is modelled as `List Char`; JavaScript strings become
`List Char`, machine words inside the hash become `Nat` reduced modulo 2^32.
The regular-expression scan `/```mermaid\n([\s\S]*?)\n```/g` used by both
`extractMermaidDiagrams` and `replaceMermaidBlocks` is embedded as an
explicit leftmost, lazy scan (`scanBlocks`): find the leftmost occurrence of
the opening marker, then the earliest following occurrence of the closing
marker, and continue after the consumed match, which is exactly the
semantics of the JavaScript global regex for this pattern (the pattern has
no empty matches and no backtracking choices beyond the lazy body).
Recursion over suffixes is expressed with an explicit fuel argument
(`content.length + 1` always suffices, and every theorem below is proved
uniformly in the fuel), so that all definitions reduce inside the kernel.
-/

namespace MermaidRender

/-! ### SHA-256 (embedding of createContentHash, src utils.ts lines 129-130)

`createContentHash` builds a sha256 hasher, updates it with the string and
digests to hex: the SHA-256 digest of the UTF-8 bytes of the string,
written as lowercase hex.  The algorithm below is FIPS 180-4 SHA-256 over a byte list, with
32-bit words represented as `Nat` values reduced modulo 2^32. -/

def wrap32 (n : Nat) : Nat := n % 4294967296

def mask32 : Nat := 4294967295

/-- Right rotation of a 32-bit word. -/
def rotr32 (b n : Nat) : Nat := wrap32 ((n >>> b) ||| (n <<< (32 - b)))

def sha256Ch (e f g : Nat) : Nat := (e &&& f) ^^^ ((e ^^^ mask32) &&& g)

def sha256Maj (a b c : Nat) : Nat := (a &&& b) ^^^ (a &&& c) ^^^ (b &&& c)

def bsig0 (x : Nat) : Nat := rotr32 2 x ^^^ rotr32 13 x ^^^ rotr32 22 x

def bsig1 (x : Nat) : Nat := rotr32 6 x ^^^ rotr32 11 x ^^^ rotr32 25 x

def ssig0 (x : Nat) : Nat := rotr32 7 x ^^^ rotr32 18 x ^^^ (x >>> 3)

def ssig1 (x : Nat) : Nat := rotr32 17 x ^^^ rotr32 19 x ^^^ (x >>> 10)

def sha256K : List Nat :=
  [1116352408, 1899447441, 3049323471, 3921009573, 961987163, 1508970993,
   2453635748, 2870763221, 3624381080, 310598401, 607225278, 1426881987,
   1925078388, 2162078206, 2614888103, 3248222580, 3835390401, 4022224774,
   264347078, 604807628, 770255983, 1249150122, 1555081692, 1996064986,
   2554220882, 2821834349, 2952996808, 3210313671, 3336571891, 3584528711,
   113926993, 338241895, 666307205, 773529912, 1294757372, 1396182291,
   1695183700, 1986661051, 2177026350, 2456956037, 2730485921, 2820302411,
   3259730800, 3345764771, 3516065817, 3600352804, 4094571909, 275423344,
   430227734, 506948616, 659060556, 883997877, 958139571, 1322822218,
   1537002063, 1747873779, 1955562222, 2024104815, 2227730452, 2361852424,
   2428436474, 2756734187, 3204031479, 3329325298]

def sha256Init : List Nat :=
  [1779033703, 3144134277, 1013904242, 2773480762,
   1359893119, 2600822924, 528734635, 1541459225]

/-- Big-endian 64-bit encoding of a length in bits. -/
def be64 (n : Nat) : List Nat :=
  [(n >>> 56) &&& 255, (n >>> 48) &&& 255, (n >>> 40) &&& 255,
   (n >>> 32) &&& 255, (n >>> 24) &&& 255, (n >>> 16) &&& 255,
   (n >>> 8) &&& 255, n &&& 255]

/-- SHA-256 padding: append 0x80, zero bytes up to 56 mod 64, then the
bit length, big endian. -/
def sha256Pad (bytes : List Nat) : List Nat :=
  let L := bytes.length
  let k := (120 - ((L + 1) % 64)) % 64
  bytes ++ [0x80] ++ List.replicate k 0 ++ be64 (8 * L)

/-- Fold four big-endian bytes into one 32-bit word. -/
def word4 : List Nat → Nat
  | [b0, b1, b2, b3] => (b0 <<< 24) ||| (b1 <<< 16) ||| (b2 <<< 8) ||| b3
  | _ => 0

/-- Split a list into chunks of `k` elements (fuel-based so it reduces). -/
def chunksAux (k : Nat) : Nat → List α → List (List α)
  | 0, _ => []
  | _, [] => []
  | fuel + 1, l => l.take k :: chunksAux k fuel (l.drop k)

def chunksOf (k : Nat) (l : List α) : List (List α) :=
  chunksAux k l.length l

/-- One step of the message-schedule extension: the next word from the
last 16 words accumulated so far. -/
def scheduleStep (acc : List Nat) : Nat :=
  let n := acc.length
  wrap32 (ssig1 (acc.getD (n - 2) 0) + acc.getD (n - 7) 0 +
          ssig0 (acc.getD (n - 15) 0) + acc.getD (n - 16) 0)

def extendWords : Nat → List Nat → List Nat
  | 0, acc => acc
  | k + 1, acc => extendWords k (acc ++ [scheduleStep acc])

/-- One SHA-256 compression round on the state `[a,b,c,d,e,f,g,h]`. -/
def sha256Round (st : List Nat) (kw : Nat × Nat) : List Nat :=
  match st with
  | [a, b, c, d, e, f, g, h] =>
    let t1 := wrap32 (h + bsig1 e + sha256Ch e f g + kw.1 + kw.2)
    let t2 := wrap32 (bsig0 a + sha256Maj a b c)
    [wrap32 (t1 + t2), a, b, c, wrap32 (d + t1), e, f, g]
  | other => other

/-- Process one 512-bit block (16 words) against the running hash value. -/
def sha256Block (h : List Nat) (block : List Nat) : List Nat :=
  let w := extendWords 48 block
  let st := (sha256K.zip w).foldl sha256Round h
  (h.zip st).map (fun p => wrap32 (p.1 + p.2))

/-- SHA-256 of a byte list: eight 32-bit words. -/
def sha256 (bytes : List Nat) : List Nat :=
  ((chunksOf 16 ((chunksOf 4 (sha256Pad bytes)).map word4)).foldl
    sha256Block sha256Init)

def hexDigitChar (n : Nat) : Char :=
  if n < 10 then Char.ofNat (48 + n) else Char.ofNat (87 + n)

def wordToHex (n : Nat) : List Char :=
  (List.range 8).map (fun i => hexDigitChar ((n >>> (28 - 4 * i)) &&& 15))

def sha256Hex (bytes : List Nat) : List Char :=
  ((sha256 bytes).map wordToHex).flatten

/-- UTF-8 encoding of one character (Node hashes the UTF-8 bytes). -/
def utf8Bytes (c : Char) : List Nat :=
  let n := c.toNat
  if n < 0x80 then [n]
  else if n < 0x800 then
    [0xC0 ||| (n >>> 6), 0x80 ||| (n &&& 0x3F)]
  else if n < 0x10000 then
    [0xE0 ||| (n >>> 12), 0x80 ||| ((n >>> 6) &&& 0x3F), 0x80 ||| (n &&& 0x3F)]
  else
    [0xF0 ||| (n >>> 18), 0x80 ||| ((n >>> 12) &&& 0x3F),
     0x80 ||| ((n >>> 6) &&& 0x3F), 0x80 ||| (n &&& 0x3F)]

def utf8Encode (s : List Char) : List Nat := s.flatMap utf8Bytes

/-- Embeds `createContentHash` (utils.ts): hex SHA-256 of the string. -/
def createContentHash (content : List Char) : List Char :=
  sha256Hex (utf8Encode content)

/-! ### Types (embedding of src/draft-ts/types.ts) -/

inductive Theme
  | light | dark | neutral | forest | base | defaultTheme
deriving DecidableEq, Repr

inductive SourceCodeStyle
  | inline | blockquote | footnote | details | none
deriving DecidableEq, Repr

structure ProcessorConfig where
  inputDir : List Char
  outputDir : List Char
  baseUrl : List Char
  defaultTheme : Theme
  generateBothThemes : Bool
  includeSourceCode : Bool
  sourceCodeStyle : SourceCodeStyle
  backgroundColor : List Char
  concurrent : Int
  skipExisting : Bool
  verbose : Bool
  dbPath : Option (List Char) := Option.none
deriving DecidableEq, Repr

structure DiagramInfo where
  id : List Char
  code : List Char
  altText : List Char
  index : Nat
deriving DecidableEq, Repr

structure ProcessingResult where
  success : Bool
  filePath : List Char
  diagramsProcessed : Nat
  error : Option (List Char) := Option.none
deriving DecidableEq, Repr

structure ProcessingStats where
  filesProcessed : Nat
  diagramsGenerated : Nat
  diagramsSkipped : Nat
  errors : Nat
deriving DecidableEq, Repr

/-- Embeds `defaultConfig` (src/draft-ts/config.ts lines 6-18). -/
def defaultConfig : ProcessorConfig :=
  { inputDir := "./public/api/articles".data
    outputDir := "./public/api/articles".data
    baseUrl := "/api/articles".data
    defaultTheme := Theme.dark
    generateBothThemes := false
    includeSourceCode := true
    sourceCodeStyle := SourceCodeStyle.inline
    backgroundColor := "transparent".data
    concurrent := 2
    skipExisting := false
    verbose := true }

/-! ### The regex scan shared by extraction and rewriting

Both `extractMermaidDiagrams` (processor.ts lines 20-41) and
`replaceMermaidBlocks` (lines 136-175) iterate the global regex
`/```mermaid\n([\s\S]*?)\n```/g` over the document.  `scanBlocks` embeds
that iteration once: it returns the ordered list of (text before the
match, lazily-matched body) pairs together with the text after the last
match. -/

def openMarker : List Char := "```mermaid\n".data

def closeMarker : List Char := "\n```".data

/-- Split a list at the first occurrence of `pat`: the part strictly before
the occurrence and the part strictly after it.  `none` when `pat` does not
occur.  (For the empty pattern this splits at position 0, matching
the JavaScript indexOf semantics.) -/
def splitOnceAfter (pat : List Char) : List Char → Option (List Char × List Char)
  | [] => if pat.isEmpty then some ([], []) else Option.none
  | c :: cs =>
    if pat.isPrefixOf (c :: cs) then some ([], (c :: cs).drop pat.length)
    else
      match splitOnceAfter pat cs with
      | some (pre, rest) => some (c :: pre, rest)
      | Option.none => Option.none

/-- One regex step: leftmost match of the pattern.  Returns the text before
the match, the body group, and the text after the whole match.  There is a
match exactly when an open marker occurs and a close marker occurs after
it; the lazy body is everything up to the earliest close marker. -/
def nextBlock (content : List Char) : Option (List Char × List Char × List Char) :=
  match splitOnceAfter openMarker content with
  | Option.none => Option.none
  | some (pre, afterOpen) =>
    match splitOnceAfter closeMarker afterOpen with
    | Option.none => Option.none
    | some (body, rest) => some (pre, body, rest)

/-- Iterate `nextBlock` from left to right (fuel-based; the wrapper passes
`content.length + 1`, which always suffices because each match consumes at
least the two markers). -/
def scanBlocksAux : Nat → List Char → List (List Char × List Char) × List Char
  | 0, content => ([], content)
  | fuel + 1, content =>
    match nextBlock content with
    | Option.none => ([], content)
    | some (pre, body, rest) =>
      let t := scanBlocksAux fuel rest
      ((pre, body) :: t.1, t.2)

def scanBlocks (content : List Char) : List (List Char × List Char) × List Char :=
  scanBlocksAux (content.length + 1) content

/-! ### Extraction (embedding of extractMermaidDiagrams, processor.ts 20-41) -/

def isJsWhitespace (c : Char) : Bool :=
  let n := c.toNat
  n = 9 || n = 10 || n = 11 || n = 12 || n = 13 || n = 32 || n = 0xA0 ||
  n = 0x1680 || (0x2000 ≤ n && n ≤ 0x200A) || n = 0x2028 || n = 0x2029 ||
  n = 0x202F || n = 0x205F || n = 0x3000 || n = 0xFEFF

/-- JavaScript `String.prototype.trim`. -/
def jsTrim (s : List Char) : List Char :=
  ((s.dropWhile isJsWhitespace).reverse.dropWhile isJsWhitespace).reverse

/-- Decimal digits of a number, as JavaScript string interpolation writes it. -/
def natChars (n : Nat) : List Char := (Nat.repr n).data

/-- The `DiagramInfo` pushed for the `i`-th match (0-based) with raw body
`body`: the body is trimmed, the id is the first 8 hex characters of its
content hash, and the alt text is `Mermaid diagram ⟨i+1⟩`. -/
def mkDiagramInfo (i : Nat) (body : List Char) : DiagramInfo :=
  let code := jsTrim body
  { id := (createContentHash code).take 8
    code := code
    altText := "Mermaid diagram ".data ++ natChars (i + 1)
    index := i }

/-- Embeds `extractMermaidDiagrams`: every match of the regex yields one
`DiagramInfo`, in document order, with a running 0-based index. -/
def extractMermaidDiagrams (content : List Char) : List DiagramInfo :=
  ((scanBlocks content).1.enum.map (fun p => mkDiagramInfo p.1 p.2.2))

/-! ### Rewrite (embedding of replaceMermaidBlocks, processor.ts 136-175) -/

/-- JavaScript `str.replace(pat, repl)` with a string pattern: replace the
first occurrence only (dollar escape sequences in the replacement are not
modelled; no claim involves them). -/
def replaceFirst (pat repl s : List Char) : List Char :=
  match splitOnceAfter pat s with
  | some (pre, rest) => pre ++ repl ++ rest
  | Option.none => s

/-- The global replacement of each newline of the code by a newline
followed by a quote marker and a space, used by the blockquote style. -/
def quoteNewlines : List Char → List Char
  | [] => []
  | c :: cs =>
    if c = '\n' then '\n' :: '>' :: ' ' :: quoteNewlines cs
    else c :: quoteNewlines cs

def themeChars : Theme → List Char
  | Theme.light => "light".data
  | Theme.dark => "dark".data
  | Theme.neutral => "neutral".data
  | Theme.forest => "forest".data
  | Theme.base => "base".data
  | Theme.defaultTheme => "default".data

/-- The replacement text the callback of `replaceMermaidBlocks` builds for
one matched block: the image reference, then, when source inclusion is on
and the style is not `none`, the style-specific re-emission of the raw
matched body (the `switch` has cases only for `inline`, `details` and
`blockquote`; every other style falls through and appends nothing). -/
def buildReplacement (config : ProcessorConfig) (diagram : DiagramInfo)
    (svgPath rawCode : List Char) : List Char :=
  let relativePath := replaceFirst config.outputDir config.baseUrl svgPath
  let base := "![".data ++ diagram.altText ++ "](".data ++ relativePath ++ ")".data
  if config.includeSourceCode && config.sourceCodeStyle ≠ SourceCodeStyle.none then
    match config.sourceCodeStyle with
    | SourceCodeStyle.inline =>
        base ++ "\n\n```mermaid\n".data ++ rawCode ++ "\n```".data
    | SourceCodeStyle.details =>
        base ++ "\n\n<details>\n<summary>View source</summary>\n\n```mermaid\n".data ++
          rawCode ++ "\n```\n\n</details>".data
    | SourceCodeStyle.blockquote =>
        base ++ "\n\n> ```mermaid\n> ".data ++ quoteNewlines rawCode ++ "\n> ```".data
    | _ => base
  else base

/-- The full text of one regex match, as left unchanged when the artifact
list is exhausted. -/
def matchText (body : List Char) : List Char := openMarker ++ body ++ closeMarker

/-- The match-by-match traversal of the `content.replace(regex, callback)`
call: `idx` is the `index` counter the callback closes over, which counts
replacements performed so far.  A site is replaced only while
`idx < svgPaths.length`; otherwise the original match text is kept and the
counter does not advance.  Accessing `diagrams[index]` when it is out of
bounds throws in JavaScript (reading `.altText` of `undefined`); that is
modelled as `none`. -/
def rewriteSites (config : ProcessorConfig) (diagrams : List DiagramInfo)
    (svgPaths : List (List Char)) :
    List (List Char × List Char) → Nat → Option (List Char)
  | [], _ => some []
  | (pre, body) :: rest, idx =>
    if h : idx < svgPaths.length then
      match diagrams[idx]? with
      | Option.none => Option.none
      | some d =>
        (rewriteSites config diagrams svgPaths rest (idx + 1)).map
          (fun tail => pre ++ buildReplacement config d svgPaths[idx] body ++ tail)
    else
      (rewriteSites config diagrams svgPaths rest idx).map
        (fun tail => pre ++ matchText body ++ tail)

/-- Embeds `replaceMermaidBlocks`: scan the matches of the same regex, and
substitute the `index`-counted replacement at each site; the text after the
last match is appended unchanged.  `none` models the JavaScript exception
raised when `diagrams[index]` is accessed out of bounds. -/
def replaceMermaidBlocks (content : List Char) (diagrams : List DiagramInfo)
    (svgPaths : List (List Char)) (config : ProcessorConfig) : Option (List Char) :=
  let scanned := scanBlocks content
  (rewriteSites config diagrams svgPaths scanned.1 0).map (fun out => out ++ scanned.2)

/-! ### Render gateway and per-diagram processing
(embedding of generateSvg and processDiagram, processor.ts 95-131)

`generateSvg` in the repository is an explicit placeholder for the real
renderer ("This would integrate with the actual Mermaid renderer"); the
spec likewise treats the render gateway as an external collaborator that
may fail.  `processDiagramWith` therefore takes the gateway as a
parameter; `processDiagram` instantiates it with the placeholder. -/

/-- Embeds the placeholder `generateSvg`: always succeeds with the template
SVG built from the theme and the first 30 characters of the code. -/
def generateSvg (diagramCode theme : List Char) : Except (List Char) (List Char) :=
  Except.ok
    ("<svg xmlns=\"http://www.w3.org/2000/svg\" viewBox=\"0 0 200 100\">\n      <text x=\"10\" y=\"50\" fill=\"currentColor\">Mermaid Diagram (".data ++
     theme ++
     ")</text>\n      <text x=\"10\" y=\"70\" fill=\"currentColor\" font-size=\"12\">".data ++
     diagramCode.take 30 ++
     "...</text>\n    </svg>".data)

/-- Node `path.extname`: the extension of the last path segment, from its
last dot, empty when the dot is absent or leads the segment. -/
def extname (p : List Char) : List Char :=
  let seg := (p.reverse.takeWhile (fun c => c ≠ '/')).reverse
  let revSeg := seg.reverse
  let revExt := revSeg.takeWhile (fun c => c ≠ '.')
  if revExt.length = revSeg.length then []
  else if revExt.length + 1 = revSeg.length then []
  else '.' :: revExt.reverse

/-- Node `path.basename(p, ext)`: the last segment, with `ext` removed when
it is a proper suffix. -/
def basename (p ext : List Char) : List Char :=
  let seg := (p.reverse.takeWhile (fun c => c ≠ '/')).reverse
  if ext ≠ [] ∧ ext.isSuffixOf seg ∧ seg ≠ ext then
    seg.take (seg.length - ext.length)
  else seg

/-- Node `path.join` (normalization of `.` and `..` segments is elided; no
claim depends on it). -/
def joinPath (a b : List Char) : List Char :=
  if a = [] then b else if b = [] then a else a ++ "/".data ++ b

/-- Embeds `processDiagram` with the render gateway abstracted: render the
diagram code under the configured default theme, then map the result to
the output path built from the base name of the file and the diagram id. -/
def processDiagramWith
    (gen : List Char → List Char → Except (List Char) (List Char))
    (config : ProcessorConfig) (diagram : DiagramInfo) (filePath : List Char) :
    Except (List Char) (List Char) :=
  (gen diagram.code (themeChars config.defaultTheme)).map (fun _ =>
    joinPath config.outputDir
      (basename filePath (extname filePath) ++ "-".data ++ diagram.id ++ ".svg".data))

/-- `processDiagram` as in the source: the gateway is the placeholder. -/
def processDiagram (config : ProcessorConfig) (diagram : DiagramInfo)
    (filePath : List Char) : Except (List Char) (List Char) :=
  processDiagramWith generateSvg config diagram filePath

def isErrB : Except (List Char) (List Char) → Bool
  | Except.error _ => true
  | Except.ok _ => false

/-- The fold applied to each collected Left: its message (a Right folds to
the empty string). -/
def errMessage : Except (List Char) (List Char) → List Char
  | Except.error m => m
  | Except.ok _ => []

/-- The fold extracting the path of a Right (a Left folds to the empty
string). -/
def okPath : Except (List Char) (List Char) → List Char
  | Except.error _ => []
  | Except.ok p => p

/-! ### Per-file processing (embedding of processFile, processor.ts 180-239)

File reads and writes are abstracted: the text of the file is an argument and the returned
pair carries, besides the `ProcessingResult`, the content written back
(`none` when no write happens).  The outer try/catch of `processFile` is
modelled by mapping the impossible out-of-bounds rewrite (`none`) to the
catch-branch failure result. -/

def processFileWith
    (gen : List Char → List Char → Except (List Char) (List Char))
    (config : ProcessorConfig) (filePath content : List Char) :
    ProcessingResult × Option (List Char) :=
  let diagrams := extractMermaidDiagrams content
  if diagrams.length = 0 then
    ({ success := true, filePath := filePath, diagramsProcessed := 0 }, Option.none)
  else
    let svgResults := diagrams.map (fun d => processDiagramWith gen config d filePath)
    let errors := svgResults.filter isErrB
    if errors.length > 0 then
      let errorMessages := List.intercalate "; ".data (errors.map errMessage)
      ({ success := false, filePath := filePath, diagramsProcessed := 0,
         error := some errorMessages }, Option.none)
    else
      let svgPaths := svgResults.map okPath
      match replaceMermaidBlocks content diagrams svgPaths config with
      | some updated =>
        ({ success := true, filePath := filePath,
           diagramsProcessed := diagrams.length }, some updated)
      | Option.none =>
        ({ success := false, filePath := filePath, diagramsProcessed := 0,
           error := some "Failed to process file".data }, Option.none)

def processFile (config : ProcessorConfig) (filePath content : List Char) :
    ProcessingResult × Option (List Char) :=
  processFileWith generateSvg config filePath content

/-! ### Batch processing (embedding of processDirectory, processor.ts 244-275) -/

/-- JavaScript `Array.prototype.slice(start, stop)` with integer
arguments. -/
def jsSlice (xs : List α) (start stop : Int) : List α :=
  let len : Int := xs.length
  let s := if start < 0 then max (len + start) 0 else min start len
  let e := if stop < 0 then max (len + stop) 0 else min stop len
  (xs.take e.toNat).drop s.toNat

/-- The chunk-building loop
`for (let i = 0; i < files.length; i += config.concurrent)`: each
iteration pushes `files.slice(i, i + c)`.  The loop is embedded with fuel;
`none` means the fuel was exhausted, which is how the non-terminating runs
(`c ≤ 0` on a non-empty list) appear at every fuel. -/
def buildChunksAux (files : List α) (c : Int) : Nat → Int → Option (List (List α))
  | 0, _ => Option.none
  | fuel + 1, i =>
    if i < (files.length : Int) then
      (buildChunksAux files c fuel (i + c)).map
        (fun rest => jsSlice files i (i + c) :: rest)
    else some []

def buildChunks (files : List α) (c : Int) : Option (List (List α)) :=
  buildChunksAux files c (files.length + 1) 0

/-- The statistics fold of processDirectory (lines 265-272): files
processed is the result count, diagrams generated sums the processed count
of successful results, diagrams skipped is the literal `0` of line 270,
and errors counts the unsuccessful results. -/
def computeStats (results : List ProcessingResult) : ProcessingStats :=
  { filesProcessed := results.length
    diagramsGenerated := results.foldl
      (fun sum r => sum + (if r.success then r.diagramsProcessed else 0)) 0
    diagramsSkipped := 0
    errors := (results.filter (fun r => !r.success)).length }

/-- Embeds `processDirectory` over an already-discovered list of
(path, content) pairs: chunk the files by the concurrency limit, process
every file of every chunk, and fold the statistics.  `none` models the
divergence of the chunk-building loop. -/
def processDirectoryPure
    (gen : List Char → List Char → Except (List Char) (List Char))
    (config : ProcessorConfig) (files : List (List Char × List Char)) :
    Option ProcessingStats :=
  (buildChunks files config.concurrent).map (fun chunks =>
    computeStats ((chunks.map (fun chunk =>
      chunk.map (fun f => (processFileWith gen config f.1 f.2).1))).flatten))

/-! ### The render-call trace (for the at-most-once-per-fingerprint claim)

`processFile` invokes `processDiagram` once for every extracted diagram,
and `processDiagram` invokes `generateSvg` unconditionally, passing the
code of the diagram; nothing in the pipeline consults `checkCached` or `store`
of database.ts (they have no call site in the processor).  The sequence of
`diagramCode` arguments handed to `generateSvg` over a run is therefore
one entry per extracted block, in processing order. -/

def generateSvgCallsFile (content : List Char) : List (List Char) :=
  (extractMermaidDiagrams content).map (fun d => d.code)

def generateSvgCallsRun (docs : List (List Char)) : List (List Char) :=
  docs.flatMap generateSvgCallsFile

/-- The number of render-gateway invocations whose source text is `code`
across a whole run over `docs`. -/
def generateSvgCallCount (docs : List (List Char)) (code : List Char) : Nat :=
  (generateSvgCallsRun docs).count code

/-! ### The order-preservation reference rewrite (for claim C4)

`siteRewrite`/`rewriteSpec` follow the words of the spec: the rewritten
document is the in-order concatenation of the match sites, where the site
at position `i` receives the artifact at position `i` and the block at
position `i` of the extraction, and a site without an artifact keeps its
original text. -/

def siteRewrite (config : ProcessorConfig) (diagrams : List DiagramInfo)
    (svgPaths : List (List Char)) (site : Nat × (List Char × List Char)) : List Char :=
  match svgPaths[site.1]?, diagrams[site.1]? with
  | some p, some d => site.2.1 ++ buildReplacement config d p site.2.2
  | _, _ => site.2.1 ++ matchText site.2.2

def rewriteSpec (content : List Char) (svgPaths : List (List Char))
    (config : ProcessorConfig) : List Char :=
  let scanned := scanBlocks content
  ((scanned.1.enum.map
      (siteRewrite config (extractMermaidDiagrams content) svgPaths)).flatten) ++ scanned.2

/-! ### Concrete documents and render oracles used by the closed theorems -/

/-- A document with one diagram block of code `graph TD\nA-->B`. -/
def dupDoc : List Char := "# A\n```mermaid\ngraph TD\nA-->B\n```".data

def graphCode : List Char := "graph TD\nA-->B".data

/-- The empty-block document of the error-handling e2e suite
(`should handle empty Mermaid blocks`). -/
def emptyBlockDoc : List Char :=
  "# Empty Mermaid Block\n\n```mermaid\n\n```\n\nContent after empty block.".data

/-- A block whose body is only whitespace. -/
def wsBlockDoc : List Char := "```mermaid\n   \n```".data

/-- A document with three diagram blocks `a`, `b`, `c`. -/
def threeBlockDoc : List Char :=
  "# D\n```mermaid\na\n```\nmid\n```mermaid\nb\n```\nmid2\n```mermaid\nc\n```".data

/-- A render gateway that fails exactly on the code `b` (the middle block
of `threeBlockDoc`) and succeeds elsewhere. -/
def failSecond (code : List Char) (theme : List Char) :
    Except (List Char) (List Char) :=
  if code = "b".data then Except.error "render failed".data
  else Except.ok ("svg-".data ++ theme)

/-- A document with no diagram blocks at all. -/
def plainDoc : List Char := "# Title\n\nplain text only.\n".data

/-- Three discovered files, for the chunking witness. -/
def threeFiles : List (List Char × List Char) :=
  [("a.md".data, dupDoc), ("b.md".data, plainDoc), ("c.md".data, plainDoc)]

/-! ## Claims -/

/-- C1: the claim says the render gateway is invoked at most once per
content fingerprint across a run, the second occurrence being served from
the cache.  The code contradicts this (and the caching its own README and
database module advertise): `processDiagram` calls `generateSvg`
unconditionally and nothing in the pipeline calls `checkCached` or
`store`, so a run over two byte-identical documents invokes the gateway
twice for the same fingerprint — once per occurrence. -/
theorem c1_render_not_deduplicated :
    generateSvgCallCount [dupDoc, dupDoc] graphCode = 2 ∧
    ¬ generateSvgCallCount [dupDoc, dupDoc] graphCode ≤ 1 ∧
    generateSvgCallCount [dupDoc] graphCode = 1 := by
  decide

/-- C3: the claim (and the e2e test `should handle empty Mermaid blocks`)
says a fenced span with an empty or whitespace-only body yields no
`DiagramBlock`.  The code contradicts it: the regex body `([\s\S]*?)` can
match an empty or all-whitespace line group, nothing filters out a trimmed
empty code, and so the extractor produces one block with code `""`; the
file is then processed with diagramsProcessed = 1, and the run counts one
generated diagram where the test expects zero. -/
theorem c3_empty_block_extracted :
    (extractMermaidDiagrams emptyBlockDoc).length = 1 ∧
    (extractMermaidDiagrams emptyBlockDoc).map (fun d => d.code) = [[]] ∧
    (extractMermaidDiagrams wsBlockDoc).length = 1 ∧
    (extractMermaidDiagrams wsBlockDoc).map (fun d => d.code) = [[]] ∧
    (processFile defaultConfig "empty-block.md".data emptyBlockDoc).1.diagramsProcessed = 1 ∧
    (computeStats [(processFile defaultConfig "empty-block.md".data emptyBlockDoc).1]).diagramsGenerated = 1 := by
  decide

/-- C2 counterexample: a document with three blocks of which exactly the
middle one fails to render (some but not all fail).  The claim says
`processFile` still returns success = true with diagramsProcessed = 2;
the code instead fails the whole file: success = false and
diagramsProcessed = 0. -/
theorem c2_partial_failure_counterexample :
    (extractMermaidDiagrams threeBlockDoc).length = 3 ∧
    ((extractMermaidDiagrams threeBlockDoc).map
        (fun d => processDiagramWith failSecond defaultConfig d "doc.md".data)).countP isErrB = 1 ∧
    ¬ (processFileWith failSecond defaultConfig "doc.md".data threeBlockDoc).1.success = true ∧
    ¬ (processFileWith failSecond defaultConfig "doc.md".data threeBlockDoc).1.diagramsProcessed = 2 := by
  decide

/-- Helper: the accumulator fold of `computeStats` is the sum of the
mapped list. -/
theorem foldl_diagrams_eq_sum (results : List ProcessingResult) (n : Nat) :
    results.foldl (fun sum r => sum + (if r.success then r.diagramsProcessed else 0)) n
      = n + (results.map (fun r => if r.success then r.diagramsProcessed else 0)).sum := by
  induction results generalizing n with
  | nil => simp
  | cons r rs ih => simp [List.foldl_cons, ih, Nat.add_assoc]

/-- C5: the statistics are a pure fold over the `ProcessingResult` list:
files processed is the number of results, diagrams generated is the sum of
`diagramsProcessed` over the successful results, and the error count is
the number of unsuccessful results.  The second summand of the claimed
error formula — per-diagram render failures recorded inside
otherwise-successful results — is identically zero, because
`ProcessingResult` records no per-diagram failures (a render failure fails
the whole file; see the C2 theorems). -/
theorem c5_stats_aggregation (results : List ProcessingResult) :
    (computeStats results).filesProcessed = results.length ∧
    (computeStats results).diagramsGenerated
      = (results.map (fun r => if r.success then r.diagramsProcessed else 0)).sum ∧
    (computeStats results).errors = results.countP (fun r => !r.success) + 0 := by
  refine ⟨rfl, ?_, ?_⟩
  · simpa using foldl_diagrams_eq_sum results 0
  · simp [computeStats, List.countP_eq_length_filter]

/-- C6: the extractor is a pure function of the document text, so two
calls on identical text return identical ordered sequences (first
conjunct, by referential transparency of the embedding), and every
extracted block carries an id equal to the first 8 hex characters of the
SHA-256 content hash of its trimmed code (second conjunct). -/
theorem c6_extraction_deterministic (content : List Char) :
    extractMermaidDiagrams content = extractMermaidDiagrams content ∧
    ∀ d ∈ extractMermaidDiagrams content,
      d.id = (createContentHash d.code).take 8 := by
  refine ⟨rfl, ?_⟩
  intro d hd
  simp only [extractMermaidDiagrams] at hd
  rcases List.mem_map.mp hd with ⟨p, _, rfl⟩
  rfl

/-- Witness for C6 at a concrete document: the single extracted block of
`dupDoc` satisfies the id/hash relation. -/
theorem c6_extraction_deterministic_witness :
    (mkDiagramInfo 0 graphCode).id
      = (createContentHash (mkDiagramInfo 0 graphCode).code).take 8 :=
  (c6_extraction_deterministic dupDoc).2 (mkDiagramInfo 0 graphCode) (by decide)

/-- C7: a document from which extraction yields zero blocks is reported as
success with diagramsProcessed = 0 and nothing is written back (the second
component `none` is the no-write frame condition). -/
theorem c7_zero_blocks_unchanged
    (gen : List Char → List Char → Except (List Char) (List Char))
    (config : ProcessorConfig) (filePath content : List Char)
    (h : extractMermaidDiagrams content = []) :
    processFileWith gen config filePath content
      = ({ success := true, filePath := filePath, diagramsProcessed := 0,
           error := Option.none }, Option.none) := by
  simp [processFileWith, h]

/-- Witness for C7 at a concrete diagram-free document. -/
theorem c7_zero_blocks_unchanged_witness :
    processFileWith generateSvg defaultConfig "a.md".data plainDoc
      = ({ success := true, filePath := "a.md".data, diagramsProcessed := 0,
           error := Option.none }, Option.none) :=
  c7_zero_blocks_unchanged generateSvg defaultConfig "a.md".data plainDoc (by decide)

/-- C2 amended: when any extracted block of a document fails to render,
`processFile` does not report partial success — it fails the whole file
with success = false, diagramsProcessed = 0, and no write is performed;
the file then counts as one error at run level (see C5). -/
theorem c2_any_render_failure_fails_file
    (gen : List Char → List Char → Except (List Char) (List Char))
    (config : ProcessorConfig) (filePath content : List Char)
    (h : ((extractMermaidDiagrams content).map
        (fun d => processDiagramWith gen config d filePath)).any isErrB = true) :
    (processFileWith gen config filePath content).1.success = false ∧
    (processFileWith gen config filePath content).1.diagramsProcessed = 0 ∧
    (processFileWith gen config filePath content).2 = Option.none := by
  rcases List.any_eq_true.mp h with ⟨r, hr, hpr⟩
  have hne : ¬ (extractMermaidDiagrams content).length = 0 := by
    intro h0
    rw [List.length_eq_zero] at h0
    rw [h0] at hr
    simp at hr
  have hf : 0 < (((extractMermaidDiagrams content).map
      (fun d => processDiagramWith gen config d filePath)).filter isErrB).length :=
    List.length_pos.mpr (List.ne_nil_of_mem (List.mem_filter.mpr ⟨hr, hpr⟩))
  simp [processFileWith, hne, hf]

/-- Witness for the amended C2 at the concrete three-block document whose
middle block fails. -/
theorem c2_any_render_failure_fails_file_witness :
    (processFileWith failSecond defaultConfig "doc.md".data threeBlockDoc).1.success = false ∧
    (processFileWith failSecond defaultConfig "doc.md".data threeBlockDoc).1.diagramsProcessed = 0 ∧
    (processFileWith failSecond defaultConfig "doc.md".data threeBlockDoc).2 = Option.none :=
  c2_any_render_failure_fails_file failSecond defaultConfig "doc.md".data threeBlockDoc
    (by decide)

/-- C9: whatever the configuration (dbPath included) and whatever the
inputs, a completed run reports diagramsSkipped = 0: the statistics fold
hardwires the field to the literal zero, and no cache consultation exists
that could skip a diagram. -/
theorem c9_diagrams_skipped_zero
    (gen : List Char → List Char → Except (List Char) (List Char))
    (config : ProcessorConfig) (files : List (List Char × List Char))
    (stats : ProcessingStats)
    (h : processDirectoryPure gen config files = some stats) :
    stats.diagramsSkipped = 0 := by
  unfold processDirectoryPure at h
  rcases Option.map_eq_some'.mp h with ⟨chunks, _, heq⟩
  rw [← heq]
  rfl

/-- Witness for C9 at a concrete one-file run with the default
configuration. -/
theorem c9_diagrams_skipped_zero_witness :
    ({ filesProcessed := 1, diagramsGenerated := 1, diagramsSkipped := 0,
       errors := 0 } : ProcessingStats).diagramsSkipped = 0 :=
  c9_diagrams_skipped_zero generateSvg defaultConfig [("a.md".data, dupDoc)]
    { filesProcessed := 1, diagramsGenerated := 1, diagramsSkipped := 0, errors := 0 }
    (by decide)

/-- Helper: under the `footnote` style the source-inclusion `switch` has no
case and appends nothing, exactly as under `none` (where the guarding
condition is already false); the base image reference is identical because
no other configuration field changes. -/
theorem buildReplacement_footnote_none (config : ProcessorConfig)
    (d : DiagramInfo) (p b : List Char) :
    buildReplacement { config with sourceCodeStyle := SourceCodeStyle.footnote } d p b
      = buildReplacement { config with sourceCodeStyle := SourceCodeStyle.none } d p b := by
  cases h : config.includeSourceCode <;> simp [buildReplacement, h]

/-- Helper: the rewrite traversal depends on the configuration only
through `buildReplacement`. -/
theorem rewriteSites_congr (c₁ c₂ : ProcessorConfig) (diagrams : List DiagramInfo)
    (svgPaths : List (List Char))
    (hrepl : ∀ d p b, buildReplacement c₁ d p b = buildReplacement c₂ d p b)
    (pairs : List (List Char × List Char)) (idx : Nat) :
    rewriteSites c₁ diagrams svgPaths pairs idx
      = rewriteSites c₂ diagrams svgPaths pairs idx := by
  induction pairs generalizing idx with
  | nil => rfl
  | cons pb rest ih =>
    obtain ⟨pre, body⟩ := pb
    by_cases h : idx < svgPaths.length
    · cases hget : diagrams[idx]? <;> simp [rewriteSites, h, hget, ih, hrepl]
    · simp [rewriteSites, h, ih]

/-- C8: running the rewrite with sourceCodeStyle = footnote produces
exactly the same text as with sourceCodeStyle = none, all other
configuration fields equal, for every document, diagram list and artifact
list. -/
theorem c8_footnote_equals_none (content : List Char) (diagrams : List DiagramInfo)
    (svgPaths : List (List Char)) (config : ProcessorConfig) :
    replaceMermaidBlocks content diagrams svgPaths
        { config with sourceCodeStyle := SourceCodeStyle.footnote }
      = replaceMermaidBlocks content diagrams svgPaths
        { config with sourceCodeStyle := SourceCodeStyle.none } := by
  simp only [replaceMermaidBlocks]
  rw [rewriteSites_congr _ _ diagrams svgPaths (buildReplacement_footnote_none config)]

/-- Helper: once the artifact list is exhausted the traversal keeps every
remaining site untouched. -/
theorem rewriteSites_exhausted (config : ProcessorConfig) (diagrams : List DiagramInfo)
    (svgPaths : List (List Char)) (pairs : List (List Char × List Char)) (idx : Nat)
    (h : svgPaths.length ≤ idx) :
    rewriteSites config diagrams svgPaths pairs idx
      = some ((pairs.map (fun pb => pb.1 ++ matchText pb.2)).flatten) := by
  induction pairs generalizing idx with
  | nil => rfl
  | cons pb rest ih =>
    obtain ⟨pre, body⟩ := pb
    have hlt : ¬ idx < svgPaths.length := Nat.not_lt.mpr h
    simp [rewriteSites, hlt, ih idx h]

/-- Helper: a reference site beyond the artifact list is untouched. -/
theorem siteRewrite_exhausted (config : ProcessorConfig) (diagrams : List DiagramInfo)
    (svgPaths : List (List Char)) (i : Nat) (pb : List Char × List Char)
    (h : svgPaths.length ≤ i) :
    siteRewrite config diagrams svgPaths (i, pb) = pb.1 ++ matchText pb.2 := by
  have hnone : svgPaths[i]? = Option.none := List.getElem?_eq_none h
  simp [siteRewrite, hnone]

/-- Helper: mapping the reference rewrite over sites numbered from an
exhausted position keeps all of them untouched. -/
theorem enumFrom_map_exhausted (config : ProcessorConfig) (diagrams : List DiagramInfo)
    (svgPaths : List (List Char)) (pairs : List (List Char × List Char)) (i : Nat)
    (h : svgPaths.length ≤ i) :
    (pairs.enumFrom i).map (siteRewrite config diagrams svgPaths)
      = pairs.map (fun pb => pb.1 ++ matchText pb.2) := by
  induction pairs generalizing i with
  | nil => rfl
  | cons pb rest ih =>
    simp [List.enumFrom, siteRewrite_exhausted config diagrams svgPaths i pb h,
      ih (i + 1) (Nat.le_trans h (Nat.le_succ i))]

/-- Helper: the stateful index-counted traversal of the source equals the
position-indexed reference rewrite whenever the diagram list covers all
sites (which is always the case when the diagrams are the extraction of
the scanned document). -/
theorem rewriteSites_spec (config : ProcessorConfig) (diagrams : List DiagramInfo)
    (svgPaths : List (List Char)) (pairs : List (List Char × List Char)) (idx : Nat)
    (h : idx + pairs.length ≤ diagrams.length) :
    rewriteSites config diagrams svgPaths pairs idx
      = some (((pairs.enumFrom idx).map (siteRewrite config diagrams svgPaths)).flatten) := by
  induction pairs generalizing idx with
  | nil => rfl
  | cons pb rest ih =>
    obtain ⟨pre, body⟩ := pb
    simp only [List.length_cons] at h
    by_cases hlt : idx < svgPaths.length
    · have hdlt : idx < diagrams.length := by omega
      have hd : diagrams[idx]? = some diagrams[idx] := List.getElem?_eq_getElem hdlt
      have hsvg : svgPaths[idx]? = some svgPaths[idx] := List.getElem?_eq_getElem hlt
      simp [rewriteSites, hlt, hd, ih (idx + 1) (by omega), List.enumFrom,
        siteRewrite, hsvg, List.append_assoc]
    · have hge : svgPaths.length ≤ idx := Nat.not_lt.mp hlt
      rw [rewriteSites_exhausted config diagrams svgPaths _ idx hge,
        enumFrom_map_exhausted config diagrams svgPaths _ idx hge]

/-- C4: order preservation of the rewrite.  With the diagram list being
the extraction of the document, the rewrite equals the reference rewrite
`rewriteSpec`, which by construction substitutes, at the site of the Nth
match (in left-to-right document order), the image reference built from
the Nth extracted block and the Nth artifact path, keeps artifact-less
sites untouched, and never reorders sites. -/
theorem c4_order_preserved (content : List Char) (svgPaths : List (List Char))
    (config : ProcessorConfig) :
    replaceMermaidBlocks content (extractMermaidDiagrams content) svgPaths config
      = some (rewriteSpec content svgPaths config) := by
  have hlen : (scanBlocks content).1.length ≤ (extractMermaidDiagrams content).length := by
    simp [extractMermaidDiagrams]
  simp only [replaceMermaidBlocks, rewriteSpec]
  rw [rewriteSites_spec config (extractMermaidDiagrams content) svgPaths
    (scanBlocks content).1 0 (by simpa using hlen)]
  simp [List.enum]

/-- Helper: `files.slice(i, i + c)` with `0 ≤ i < files.length` and
`1 ≤ c` is drop-then-take. -/
theorem jsSlice_eq_drop_take {α : Type} (files : List α) (i c : Int)
    (hi : 0 ≤ i) (hc : 1 ≤ c) (hlt : i < (files.length : Int)) :
    jsSlice files i (i + c) = (files.drop i.toNat).take c.toNat := by
  have h1 : ¬ i < 0 := by omega
  have h2 : ¬ i + c < 0 := by omega
  simp only [jsSlice, h1, h2, if_false]
  have hs : (min i (files.length : Int)).toNat = i.toNat := by omega
  have he : (min (i + c) (files.length : Int)).toNat
      = min (i.toNat + c.toNat) files.length := by omega
  rw [hs, he, List.drop_take, List.take_eq_take]
  simp only [List.length_drop]
  omega

/-- Helper: with a non-positive step and a non-empty file list the chunk
loop never reaches the exit condition, so it returns `none` at every
fuel. -/
theorem buildChunksAux_diverges {α : Type} (files : List α) (c : Int)
    (hc : c ≤ 0) (hne : files ≠ []) :
    ∀ (fuel : Nat) (i : Int), i ≤ 0 → buildChunksAux files c fuel i = Option.none := by
  intro fuel
  induction fuel with
  | zero => intro i _; rfl
  | succ f ih =>
    intro i hi
    have hpos : files.length ≠ 0 := fun h0 => hne (List.length_eq_zero.mp h0)
    have hilt : i < (files.length : Int) := by omega
    simp [buildChunksAux, hilt, ih (i + c) (by omega)]

/-- Helper: with step at least 1 the loop exits; fuel exceeding the
remaining distance suffices. -/
theorem buildChunksAux_total {α : Type} (files : List α) (c : Int) (hc : 1 ≤ c) :
    ∀ (fuel : Nat) (i : Int), 0 ≤ i → 1 ≤ fuel → (files.length : Int) < i + fuel →
    ∃ chunks, buildChunksAux files c fuel i = some chunks := by
  intro fuel
  induction fuel with
  | zero => intro i _ h1 _; exact absurd h1 (by omega)
  | succ f ih =>
    intro i hi _ hbound
    by_cases hlt : i < (files.length : Int)
    · have hf1 : 1 ≤ f := by omega
      obtain ⟨chunks, hch⟩ := ih (i + c) (by omega) hf1 (by omega)
      exact ⟨jsSlice files i (i + c) :: chunks, by simp [buildChunksAux, hlt, hch]⟩
    · exact ⟨[], by simp [buildChunksAux, hlt]⟩

/-- Helper: any successful chunking from position `i` with step `c ≥ 1`
concatenates back to the files from position `i` on, with every chunk of
size at most `c`. -/
theorem buildChunksAux_flatten {α : Type} (files : List α) (c : Int) (hc : 1 ≤ c) :
    ∀ (fuel : Nat) (i : Int) (chunks : List (List α)), 0 ≤ i →
    buildChunksAux files c fuel i = some chunks →
    chunks.flatten = files.drop i.toNat ∧ ∀ ch ∈ chunks, (ch.length : Int) ≤ c := by
  intro fuel
  induction fuel with
  | zero =>
    intro i chunks _ h
    exact absurd h (by simp [buildChunksAux])
  | succ f ih =>
    intro i chunks hi h
    by_cases hlt : i < (files.length : Int)
    · simp only [buildChunksAux, hlt, if_true] at h
      rcases Option.map_eq_some'.mp h with ⟨rest, hrest, hchunks⟩
      obtain ⟨hfl, hbnd⟩ := ih (i + c) rest (by omega) hrest
      subst hchunks
      refine ⟨?_, ?_⟩
      · rw [List.flatten_cons, hfl, jsSlice_eq_drop_take files i c hi hc hlt]
        have htn : (i + c).toNat = i.toNat + c.toNat := by omega
        rw [htn, (List.drop_drop c.toNat i.toNat files).symm]
        exact List.take_append_drop _ _
      · intro ch hch
        rcases List.mem_cons.mp hch with hceq | hmem
        · subst hceq
          have hle : (jsSlice files i (i + c)).length ≤ c.toNat := by
            rw [jsSlice_eq_drop_take files i c hi hc hlt, List.length_take]
            omega
          omega
        · exact hbnd ch hmem
    · simp only [buildChunksAux, hlt, if_false] at h
      have hch : chunks = [] := (Option.some_inj.mp h).symm
      subst hch
      have hdrop : files.drop i.toNat = [] := List.drop_eq_nil_of_le (by omega)
      exact ⟨by rw [List.flatten_nil, hdrop], by simp⟩

/-- C10: for a non-empty file list, the chunk-building loop of
processDirectory terminates exactly when the configured concurrency is at
least 1, and under that precondition the chunks are an ordered partition
of the file list (their concatenation is the file list itself, so every
file is processed exactly once) and every chunk has size at most the
concurrency limit. -/
theorem c10_chunks_partition (files : List (List Char × List Char)) (c : Int)
    (hne : files ≠ []) :
    ((∃ fuel chunks, buildChunksAux files c fuel 0 = some chunks) ↔ 1 ≤ c) ∧
    ∀ chunks, 1 ≤ c → buildChunks files c = some chunks →
      chunks.flatten = files ∧ ∀ ch ∈ chunks, (ch.length : Int) ≤ c := by
  constructor
  · constructor
    · rintro ⟨fuel, chunks, h⟩
      by_contra hc
      rw [buildChunksAux_diverges files c (by omega) hne fuel 0 le_rfl] at h
      exact Option.noConfusion h
    · intro hc
      obtain ⟨chunks, h⟩ := buildChunksAux_total files c hc (files.length + 1) 0
        le_rfl (by omega) (by push_cast; omega)
      exact ⟨_, _, h⟩
  · intro chunks hc h
    obtain ⟨hfl, hbnd⟩ := buildChunksAux_flatten files c hc _ 0 chunks le_rfl h
    exact ⟨by simpa using hfl, hbnd⟩

/-- Witness for C10 at three concrete files with concurrency 2. -/
theorem c10_chunks_partition_witness :
    ((∃ fuel chunks, buildChunksAux threeFiles (2 : Int) fuel 0 = some chunks) ↔ 1 ≤ (2 : Int)) ∧
    ∀ chunks, 1 ≤ (2 : Int) → buildChunks threeFiles (2 : Int) = some chunks →
      chunks.flatten = threeFiles ∧ ∀ ch ∈ chunks, (ch.length : Int) ≤ (2 : Int) :=
  c10_chunks_partition threeFiles 2 (by decide)

end MermaidRender
